import Mathlib

/-!
Verification of the ticket lifecycle engine of the `bullet` alert relay.

The repository is a Python webhook-driven alert relay.  This file gives a
shallow embedding of the parts of the code that the verified claims are
about:

* the data model (`app/models/ticket.py`, `app/models/project.py`,
  `app/models/notification_group.py`, `app/models/contact.py`);
* the escalation scheduler (`app/services/escalation.py`);
* the acknowledgement endpoint (`app/api/ack.py`);
* the web acknowledge/resolve handlers (`app/web/tickets.py`);
* the webhook intake handler (`app/api/webhook.py`);
* the notification dispatcher (`app/services/notification.py`).

Machine timestamps (Python `datetime`) are embedded as `Int` numbers of
seconds; a Python `timedelta(minutes=m)` becomes `60 * m` seconds.  Only
the ordering of timestamps matters to any statement below, so the unit is
irrelevant.  Optional values (`Optional[...]`, `None`) become `Option`;
Python dictionaries that are only carried around become association lists.
-/

namespace Bullet

/-- `TicketStatus` of `app/models/ticket.py`. -/
inductive TicketStatus where
  | ignored
  | pending
  | acknowledged
  | escalated
  | resolved
deriving DecidableEq, Repr

/-- `EventType` of `app/models/ticket.py`. -/
inductive EventType where
  | created
  | notified
  | notifiedSilenced
  | repeated
  | escalated
  | maxLevelReached
  | acknowledged
  | resolved
deriving DecidableEq, Repr

/-- `TicketEvent` of `app/models/ticket.py`: one entry of the append-only
timeline. -/
structure TicketEvent where
  type : EventType
  timestamp : Int
  level : Option Nat
  group_name : Option String
  success : Option Bool
  details : String
deriving DecidableEq, Repr

/-- `Ticket` of `app/models/ticket.py` (the fields the claims touch;
`parsed_data` is carried as an opaque optional string). -/
structure Ticket where
  project_id : String
  source : String
  status : TicketStatus
  escalation_level : Nat
  payload : String
  labels : List (String × String)
  title : String
  description : String
  severity : String
  ack_token : String
  acknowledged_at : Option Int
  acknowledged_by : Option String
  last_notified_at : Option Int
  notification_count : Nat
  events : List TicketEvent
  created_at : Int
  updated_at : Int
  resolved_at : Option Int
deriving DecidableEq, Repr

/-- `EscalationConfig` of `app/models/project.py`. -/
structure EscalationConfig where
  enabled : Bool
  timeout_minutes : Nat
deriving DecidableEq, Repr

/-- `Project` of `app/models/project.py` (the fields the claims touch). -/
structure Project where
  id : String
  namespace_id : String
  name : String
  description : String
  notification_group_ids : List String
  escalation_config : EscalationConfig
  is_active : Bool
  notify_on_ack : Bool
  silenced_until : Option Int
deriving DecidableEq, Repr

/-- `ChannelType` of `app/models/notification_group.py`. -/
inductive ChannelType where
  | feishu
  | email
  | sms
  | slack
deriving DecidableEq, Repr

/-- `ChannelConfig` of `app/models/notification_group.py`. -/
structure ChannelConfig where
  type : ChannelType
  contact_ids : List String
deriving DecidableEq, Repr

/-- `NotificationGroup` of `app/models/notification_group.py`.
`repeat_interval` is `Optional[int]` minutes, `None` meaning no repeat. -/
structure NotificationGroup where
  name : String
  description : String
  repeat_interval : Option Nat
  channel_configs : List ChannelConfig
deriving DecidableEq, Repr

/-- `Contact` of `app/models/contact.py` (the fields the dispatcher
reads).  `feishu_webhook_url` is a plain `str` defaulting to `""`
(Python truthiness: empty means no webhook).  Note the model defines
**no** `slack_channel_id` field: the dispatcher's slack branch reads a
nonexistent attribute, which raises in the source (see
`send_to_channel_config`). -/
structure Contact where
  id : String
  name : String
  phones : List String
  emails : List String
  feishu_webhook_url : String
deriving DecidableEq, Repr

/-- `Project.is_silenced` of `app/models/project.py`:
`silenced_until` is set and `utcnow() < silenced_until`. -/
def Project.is_silenced (p : Project) (now : Int) : Bool :=
  match p.silenced_until with
  | none => false
  | some until_ => now < until_

/-- Python `str.lower()`; ASCII case folding, which covers every
severity tag the code compares. -/
def py_lower (s : String) : String := ⟨s.data.map Char.toLower⟩

/-- `Ticket.can_escalate` of `app/models/ticket.py`: status must be
`pending` or `escalated`, and `severity.lower() == "critical"` (the empty
severity is falsy in Python, giving `False`). -/
def Ticket.can_escalate (t : Ticket) : Bool :=
  if t.status ≠ TicketStatus.pending ∧ t.status ≠ TicketStatus.escalated then
    false
  else if t.severity = "" then
    false
  else
    py_lower t.severity = "critical"

/-- `Ticket.add_event` of `app/models/ticket.py`: append one timeline
entry (the Python method takes `utcnow()` internally; here the clock is a
parameter). -/
def Ticket.add_event (t : Ticket) (ty : EventType) (now : Int)
    (level : Option Nat) (group_name : Option String)
    (success : Option Bool) (details : String) : Ticket :=
  { t with events := t.events ++
      [{ type := ty, timestamp := now, level := level,
         group_name := group_name, success := success, details := details }] }

/-- Python truthiness of the `Optional[int]` field `repeat_interval`
as used by `if current_group.repeat_interval:` in
`app/services/escalation.py`: `None` and `0` are falsy.  (The only writer
of this field, `app/web/notification_groups.py`, normalises `0` to `None`.) -/
def repeatConfigured : Option Nat → Bool
  | none => false
  | some r => r ≠ 0

/-- The action decided for one ticket by one scheduler pass.  The payload
records the level and the notification group the action uses. -/
inductive TickAction where
  | doNothing
  | repeatNotify (level : Nat) (group : NotificationGroup)
  | escalate (newLevel : Nat) (group : NotificationGroup)
  | recordMaxLevel (level : Nat) (group : NotificationGroup)
deriving DecidableEq, Repr

/-- The decision core of `_process_ticket` in `app/services/escalation.py`
(lines 70-158).  `lookup` embeds `NotificationGroup.get` on the store
(`none` for a dangling group id).  The function returns the action the
source takes; `apply_action` below performs the corresponding state
update of `_repeat_notification` / `_escalate_ticket` / the max-level
branch. -/
def process_ticket (lookup : String → Option NotificationGroup)
    (project : Project) (t : Ticket) (now : Int) : TickAction :=
  if ¬ t.can_escalate then .doNothing
  else
    let ids := project.notification_group_ids
    let currentIndex := t.escalation_level - 1
    if currentIndex ≥ ids.length then .doNothing
    else
      match lookup (ids.getD currentIndex "") with
      | none => .doNothing
      | some currentGroup =>
        let timeSince : Int :=
          now - (t.last_notified_at.getD t.created_at)
        let timeout : Int := 60 * (project.escalation_config.timeout_minutes : Int)
        let maxLevel := ids.length
        if repeatConfigured currentGroup.repeat_interval ∧ timeSince < timeout ∧
            timeSince ≥ 60 * ((currentGroup.repeat_interval.getD 0 : Nat) : Int) then
          .repeatNotify t.escalation_level currentGroup
        else if timeSince < timeout then .doNothing
        else if t.escalation_level ≥ maxLevel then
          if repeatConfigured currentGroup.repeat_interval then
            if timeSince ≥ 60 * ((currentGroup.repeat_interval.getD 0 : Nat) : Int) then
              .repeatNotify t.escalation_level currentGroup
            else .doNothing
          else if t.events.any (fun e => e.type = EventType.maxLevelReached) then
            .doNothing
          else
            .recordMaxLevel t.escalation_level currentGroup
        else
          let nextLevel := t.escalation_level + 1
          let nextIndex := nextLevel - 1
          if nextIndex ≥ ids.length then .doNothing
          else
            match lookup (ids.getD nextIndex "") with
            | none => .doNothing
            | some nextGroup => .escalate nextLevel nextGroup

/-- The state update performed for each `TickAction`, from
`_repeat_notification` (lines 161-192), `_escalate_ticket`
(lines 195-230) and the max-level branch of `_process_ticket`
(lines 128-139) of `app/services/escalation.py`.  `success` and `details`
stand for the per-channel dispatch outcome the event records. -/
def apply_action (t : Ticket) (a : TickAction) (now : Int)
    (success : Bool) (details : String) : Ticket :=
  match a with
  | .doNothing => t
  | .repeatNotify level g =>
      let t' := t.add_event EventType.repeated now (some level) (some g.name)
        (some success) details
      { t' with last_notified_at := some now,
                notification_count := t'.notification_count + 1,
                updated_at := now }
  | .escalate newLevel g =>
      let t' := { t with status := TicketStatus.escalated,
                         escalation_level := newLevel,
                         updated_at := now }
      let t'' := t'.add_event EventType.escalated now (some newLevel)
        (some g.name) (some success) details
      { t'' with last_notified_at := some now,
                 notification_count := t''.notification_count + 1 }
  | .recordMaxLevel level g =>
      let t' := t.add_event EventType.maxLevelReached now (some level)
        (some g.name) none "已到达最高级别，无更多通知组"
      { t' with updated_at := now }

/-- One scheduler pass over one ticket: decide with `process_ticket`,
then perform the decided update. -/
def tick_ticket (lookup : String → Option NotificationGroup)
    (project : Project) (now : Int) (success : Bool) (details : String)
    (t : Ticket) : Ticket :=
  apply_action t (process_ticket lookup project t now) now success details

/-- The parameters one scheduler pass depends on (store contents, clock,
dispatch outcome). -/
structure TickParams where
  lookup : String → Option NotificationGroup
  project : Project
  now : Int
  success : Bool
  details : String

/-- A sequence of scheduler passes applied to one ticket. -/
def run_ticks (t : Ticket) (ps : List TickParams) : Ticket :=
  ps.foldl (fun t q => tick_ticket q.lookup q.project q.now q.success q.details t) t

/-- The per-ticket loop of `_check_project_tickets`
(`app/services/escalation.py` lines 66-67):
`for ticket in tickets: await _process_ticket(...)` — with no exception
handler around the body.  The processing of one ticket is embedded as
`proc : Ticket → Except String Ticket` (`error` = the unexpected Python
exception the claim speaks about, raised somewhere inside
`_process_ticket`, e.g. from a store read or a dispatcher call).
The result is the list of tickets whose processing ran to completion, and
the exception that escaped the loop, if any. -/
def check_project_tickets_sweep (proc : Ticket → Except String Ticket) :
    List Ticket → List Ticket × Option String
  | [] => ([], none)
  | t :: ts =>
    match proc t with
    | Except.error e => ([], some e)
    | Except.ok t' =>
      let r := check_project_tickets_sweep proc ts
      (t' :: r.1, r.2)

/-! ## Acknowledgement endpoint (`app/api/ack.py`) -/

/-- The response classes of `acknowledge_ticket_via_link`
(`app/api/ack.py`).  `notFound` is the missing-ticket 404, `forbidden`
the invalid-token 403; the other three are the positive responses (HTTP
200 for `format=json`/`html`, 302 for `format=redirect`). -/
inductive AckResponse where
  | notFound
  | forbidden
  | alreadyAcknowledged
  | alreadyResolved
  | acknowledged
deriving DecidableEq, Repr

/-- The HTTP status code of each response class, identical for every
`format` value in the source (`json` raises an `HTTPException`, the
others return an `HTMLResponse`/`RedirectResponse` with the same code;
302 of `format=redirect` is folded into the positive 200 here). -/
def AckResponse.status_code : AckResponse → Nat
  | .notFound => 404
  | .forbidden => 403
  | _ => 200

/-- What one call of the ack endpoint produced: the saved ticket state,
the response class, and whether the ack-back notification was fired. -/
structure AckOutcome where
  ticket : Ticket
  response : AckResponse
  notified : Bool
deriving DecidableEq, Repr

/-- `acknowledge_ticket_via_link` of `app/api/ack.py` (lines 37-97), for
an existing ticket: token check, already-acknowledged / already-resolved
short circuits, otherwise acknowledge, append the `ACKNOWLEDGED` event,
save, and fire the best-effort ack-back notification. -/
def acknowledge_ticket_via_link (t : Ticket) (token : String) (now : Int) :
    AckOutcome :=
  if t.ack_token ≠ token then ⟨t, .forbidden, false⟩
  else if t.status = TicketStatus.acknowledged then ⟨t, .alreadyAcknowledged, false⟩
  else if t.status = TicketStatus.resolved then ⟨t, .alreadyResolved, false⟩
  else
    let t' := { t with status := TicketStatus.acknowledged,
                       acknowledged_at := some now,
                       acknowledged_by := some "link",
                       updated_at := now }
    ⟨t'.add_event EventType.acknowledged now none none none "通过回调链接确认",
      .acknowledged, true⟩

/-! ## Web handlers (`app/web/tickets.py`) and auto-resolve
(`app/api/webhook.py`) -/

/-- `acknowledge_ticket` of `app/web/tickets.py` (lines 130-154): a
web-originated acknowledgement, gated on status `pending` or
`escalated`, recording the acknowledger's user id. -/
def acknowledge_ticket_web (t : Ticket) (user_id user_name : String)
    (now : Int) : Ticket :=
  if t.status = TicketStatus.pending ∨ t.status = TicketStatus.escalated then
    let t' := { t with status := TicketStatus.acknowledged,
                       acknowledged_at := some now,
                       acknowledged_by := some user_id,
                       updated_at := now }
    t'.add_event EventType.acknowledged now none none none
      ("由 " ++ user_name ++ " 确认")
  else t

/-- `resolve_ticket` of `app/web/tickets.py` (lines 157-174): set status
`resolved` and `resolved_at` unless already resolved.  Note that the
acknowledgement fields are left untouched. -/
def resolve_ticket_web (t : Ticket) (user_name : String) (now : Int) : Ticket :=
  if t.status ≠ TicketStatus.resolved then
    let t' := { t with status := TicketStatus.resolved,
                       resolved_at := some now,
                       updated_at := now }
    t'.add_event EventType.resolved now none none none
      ("由 " ++ user_name ++ " 标记解决")
  else t

/-- The per-ticket body of the auto-resolve loop of `receive_webhook`
(`app/api/webhook.py` lines 145-150); the store query restricts to
`status = PENDING`, embedded as the guard. -/
def auto_resolve_ticket (t : Ticket) (now : Int) : Ticket :=
  if t.status = TicketStatus.pending then
    let t' := { t with status := TicketStatus.resolved,
                       resolved_at := some now,
                       updated_at := now }
    t'.add_event EventType.resolved now none none none
      "自动解决（收到 resolved 状态）"
  else t

/-! ## Webhook intake (`app/api/webhook.py`) -/

/-- `Namespace` of `app/models/namespace.py` (the fields the webhook
endpoint reads). -/
structure Namespace where
  id : String
  slug : String
deriving DecidableEq, Repr

/-- The fields `_extract_ticket_info` returns (`app/api/webhook.py`
lines 34-84). -/
structure TicketInfo where
  title : String
  description : String
  severity : String
  labels : List (String × String)
  status : String
deriving DecidableEq, Repr

/-- The ticket constructed and saved by the create path of
`receive_webhook` (`app/api/webhook.py` lines 164-224): status
`pending`, level 1, a `CREATED` event, then either a
`NOTIFIED_SILENCED` event (silenced project, no notification, count 0)
or a `NOTIFIED` event with `last_notified_at` and `notification_count = 1`.
`success`/`details` stand for the dispatch outcome recorded in the
event. -/
def intake_ticket (project : Project) (source payload : String)
    (info : TicketInfo) (ack_token : String) (now : Int)
    (group_name : Option String) (success : Bool) (details : String) : Ticket :=
  let t0 : Ticket :=
    { project_id := project.id
      source := source
      status := TicketStatus.pending
      escalation_level := 1
      payload := payload
      labels := info.labels
      title := info.title
      description := info.description
      severity := info.severity
      ack_token := ack_token
      acknowledged_at := none
      acknowledged_by := none
      last_notified_at := none
      notification_count := 0
      events := []
      created_at := now
      updated_at := now
      resolved_at := none }
  let t1 := t0.add_event EventType.created now none none none ("来源: " ++ source)
  if project.is_silenced now then
    t1.add_event EventType.notifiedSilenced now (some 1) none none
      "项目已静默，跳过通知"
  else
    let t2 := t1.add_event EventType.notified now (some 1) group_name
      (some success) details
    { t2 with last_notified_at := some now, notification_count := 1 }

/-- A JSON body returned by `receive_webhook`, reduced to the fields the
claims inspect (`status_code`, the `status` tag, the `message`). -/
structure HttpResponse where
  status_code : Nat
  status : String
  message : String
deriving DecidableEq, Repr

/-- The observable effects of one `receive_webhook` call: the response,
the ticket inserted (if any), the tickets auto-resolved (if any), and
whether a notification dispatch was attempted. -/
structure WebhookResult where
  response : HttpResponse
  inserted : Option Ticket
  resolved_tickets : List Ticket
  notified : Bool
deriving DecidableEq, Repr

/-- The store and clock context one `receive_webhook` call runs in.
`parse_json` embeds `request.json()` (`none` = invalid JSON, raising a
400); `extract_info` embeds `_extract_ticket_info` (whose `grafana`
parser lives outside the `app` core) as a function of source tag and
parsed payload; `pending_tickets` is the store's answer to the
pending-tickets query of the auto-resolve branch. -/
structure WebhookEnv where
  find_namespace : String → Option Namespace
  get_project : String → Option Project
  lookup_group : String → Option NotificationGroup
  pending_tickets : List Ticket
  parse_json : String → Option String
  extract_info : String → String → TicketInfo
  fresh_ack_token : String
  now : Int
  notify_success : Bool
  notify_details : String

/-- `receive_webhook` of `app/api/webhook.py` (lines 87-235): namespace
lookup, project lookup and namespace check, the disabled-project
short-circuit (before the body is parsed), JSON parsing, the
auto-resolve branch for `resolved` payloads, then ticket creation with
either the silenced or the notify path. -/
def receive_webhook (env : WebhookEnv) (namespace_slug project_id source : String)
    (raw_body : String) : WebhookResult :=
  match env.find_namespace namespace_slug with
  | none =>
    ⟨⟨404, "error", "Namespace not found: " ++ namespace_slug⟩, none, [], false⟩
  | some ns =>
    match env.get_project project_id with
    | none => ⟨⟨404, "error", "Project not found: " ++ project_id⟩, none, [], false⟩
    | some project =>
      if project.namespace_id ≠ ns.id then
        ⟨⟨404, "error", "Project not found: " ++ project_id⟩, none, [], false⟩
      else if ¬ project.is_active then
        ⟨⟨200, "ignored", "Project is disabled"⟩, none, [], false⟩
      else
        match env.parse_json raw_body with
        | none => ⟨⟨400, "error", "Invalid JSON payload"⟩, none, [], false⟩
        | some payload =>
          let info := env.extract_info source payload
          if info.status = "resolved" then
            let rs := env.pending_tickets.map (fun t => auto_resolve_ticket t env.now)
            ⟨⟨200, "resolved", "Resolved tickets"⟩, none, rs, false⟩
          else
            let group_name : Option String :=
              match project.notification_group_ids.head? with
              | none => none
              | some gid => (env.lookup_group gid).map (fun g => g.name)
            let t := intake_ticket project source payload info
              env.fresh_ack_token env.now group_name env.notify_success
              env.notify_details
            if project.is_silenced env.now then
              ⟨⟨200, "silenced", "Ticket created but notifications silenced"⟩,
                some t, [], false⟩
            else
              ⟨⟨200, "ok", "Ticket created"⟩, some t, [], true⟩

/-! ## Token comparison cost (`app/api/ack.py` line 38)

The source compares the secret with Python string inequality
(`ticket.ack_token != token`).  CPython string comparison first compares
lengths, then scans the characters and stops at the first difference;
`str_eq_steps` counts the character comparisons this scan performs on two
equal-length strings. -/

/-- Character comparisons performed by an early-exit equality scan. -/
def str_eq_steps : List Char → List Char → Nat
  | [], [] => 0
  | [], _ :: _ => 0
  | _ :: _, [] => 0
  | x :: xs, y :: ys => 1 + (if x = y then str_eq_steps xs ys else 0)

/-- Cost of the token comparison the ack endpoint performs on a given
provided token (`if ticket.ack_token != token:` in `app/api/ack.py`). -/
def token_compare_steps (t : Ticket) (provided : String) : Nat :=
  str_eq_steps t.ack_token.data provided.data

/-! ## Notification dispatcher (`app/services/notification.py`) -/

/-- `NotificationTemplate` of `app/models/notification_template.py`
(the template bodies the dispatcher renders). -/
structure NotificationTemplate where
  name : String
  feishu_card : String
  email_subject : String
  email_body : String
  sms_message : String
deriving DecidableEq, Repr

/-- Validity of a string for bson's `ObjectId(...)` constructor: exactly
24 hexadecimal characters; any other string makes `ObjectId(cid)` raise
`InvalidId` (the constructor call on line 124 of
`app/services/notification.py`). -/
def is_valid_object_id (s : String) : Bool :=
  s.length == 24 &&
    s.data.all (fun c =>
      c.isDigit || ('a' ≤ c && c ≤ 'f') || ('A' ≤ c && c ≤ 'F'))

/-- Modelled from the spec: `BaseChannel.send_safe`
(`app/channels/base.py` is not under `src/`; only its callers are).
Per §4.B/§7 of the spec a transport attempt never raises to its caller
and "transport errors become `false` entries", so one attempt is a total
boolean outcome, keyed here by the label the attempt is recorded under
in the result map. -/
def TransportOracle : Type := String → Bool

/-- `render_string` of `app/services/template.py`: empty template gives
`""`; the third-party Jinja engine is embedded as the oracle
`jinja : String → Except String String` (the rendering context is folded
into the oracle; `error` is any exception the engine raises, which the
source catches and turns into `""`). -/
def render_string (jinja : String → Except String String)
    (template_str : String) : String :=
  if template_str = "" then ""
  else
    match jinja template_str with
    | Except.ok r => r
    | Except.error _ => ""

/-- `render_feishu_card` of `app/services/template.py`: render, then
parse as JSON; `parse_card` embeds `json.loads` (`none` = the
`JSONDecodeError` the source catches), the card value kept opaque. -/
def render_feishu_card (jinja : String → Except String String)
    (parse_card : String → Option String) (tpl : NotificationTemplate) :
    Option String :=
  if tpl.feishu_card = "" then none
  else
    let rendered := render_string jinja tpl.feishu_card
    if rendered = "" then none
    else parse_card rendered

/-- `render_email` of `app/services/template.py`. -/
def render_email (jinja : String → Except String String)
    (tpl : NotificationTemplate) : String × String :=
  (render_string jinja tpl.email_subject, render_string jinja tpl.email_body)

/-- `render_sms` of `app/services/template.py`. -/
def render_sms (jinja : String → Except String String)
    (tpl : NotificationTemplate) : String :=
  render_string jinja tpl.sms_message

/-- Assignment into the Python result dict: overwrite an existing key,
else append. -/
def dict_insert (m : List (String × Bool)) (k : String) (v : Bool) :
    List (String × Bool) :=
  if m.any (fun p => p.1 = k) then
    m.map (fun p => if p.1 = k then (k, v) else p)
  else m ++ [(k, v)]

/-- `results.update(channel_results)` on Python dicts. -/
def dict_update (m updates : List (String × Bool)) : List (String × Bool) :=
  updates.foldl (fun acc p => dict_insert acc p.1 p.2) m

/-- `_send_to_channel_config` of `app/services/notification.py`
(lines 106-193): convert the config's contact ids to `ObjectId`s
(raising `InvalidId` on a malformed id), fetch the matching contacts,
then per channel type build the transport attempts and record each
outcome under its label (`feishu:<name>`, `email`, `sms`); contacts
without the relevant address, and channel types with no usable address
at all, produce no entry.  The slack branch is broken in this code
state: its loop body reads `contact.slack_channel_id`, a field
`app/models/contact.py` does not define (an `AttributeError` on the
first resolved contact — and the branch is only reached with at least
one resolved contact), and it instantiates `SlackChannel`, a name
`app/channels/slack.py` does not define either (it defines
`SlackWebhookChannel`); the attribute read raises first, so the branch
is embedded as that error. -/
def send_to_channel_config (contacts_store : List Contact)
    (transport : TransportOracle) (cfg : ChannelConfig) :
    Except String (List (String × Bool)) := do
  let ids ← (cfg.contact_ids.filter (fun c => c ≠ "")).mapM
    (fun cid =>
      if is_valid_object_id cid then Except.ok cid
      else Except.error ("InvalidId: " ++ cid))
  let contacts := contacts_store.filter (fun c => ids.contains c.id)
  if contacts.isEmpty then return []
  match cfg.type with
  | ChannelType.feishu =>
      return contacts.foldl (fun acc c =>
        if c.feishu_webhook_url ≠ "" then
          dict_insert acc ("feishu:" ++ c.name)
            (transport ("feishu:" ++ c.name))
        else acc) []
  | ChannelType.email =>
      let all_emails := contacts.foldl (fun acc c => acc ++ c.emails) []
      if all_emails.isEmpty then return []
      else return [("email", transport "email")]
  | ChannelType.sms =>
      let all_phones := contacts.foldl (fun acc c => acc ++ c.phones) []
      if all_phones.isEmpty then return []
      else return [("sms", transport "sms")]
  | ChannelType.slack =>
      Except.error "AttributeError: Contact.slack_channel_id"

/-- The contacts a channel config resolves from the store, as computed
by `_send_to_channel_config` (empty and malformed ids aside, the `$in`
query keeps exactly the store contacts whose id is configured). -/
def resolved_contacts (contacts_store : List Contact)
    (cfg : ChannelConfig) : List Contact :=
  contacts_store.filter
    (fun c => (cfg.contact_ids.filter (fun x => x ≠ "")).contains c.id)

/-- `NotificationService.send_to_group` of `app/services/notification.py`
(lines 27-104): render the optional template (a total phase — every
rendering failure is caught inside `render_string` /
`render_feishu_card`), then walk the group's channel configs in order,
merging each config's outcome map into the result.  The source never
assigns to the ticket; the embedding threads it through unchanged, so the
returned ticket is the caller's view of the ticket after the call. -/
def send_to_group (jinja : String → Except String String)
    (parse_card : String → Option String) (contacts_store : List Contact)
    (transport : TransportOracle) (t : Ticket) (group : NotificationGroup)
    (template : Option NotificationTemplate) (project : Option Project)
    (is_escalated is_repeated is_ack_notification : Bool)
    (acknowledged_by_name : String) :
    Except String (List (String × Bool) × Ticket) := do
  let _rendered_feishu_card := template.bind (render_feishu_card jinja parse_card)
  let _rendered_email := template.map (render_email jinja)
  let _rendered_sms := template.map (render_sms jinja)
  let results ← group.channel_configs.foldlM
    (fun acc cfg => do
      let r ← send_to_channel_config contacts_store transport cfg
      pure (dict_update acc r)) []
  pure (results, t)

/-! ## The decision table of spec §4.E step 5 (claim C1) -/

/-- The action named by a row of the spec's decision table, without the
group payload: what happens to the ticket at which level. -/
inductive ActionKind where
  | doNothing
  | repeatAt (level : Nat)
  | escalateTo (level : Nat)
  | recordMax
deriving DecidableEq, Repr

/-- Forget the group payload of a `TickAction`. -/
def TickAction.kind : TickAction → ActionKind
  | .doNothing => .doNothing
  | .repeatNotify level _ => .repeatAt level
  | .escalate newLevel _ => .escalateTo newLevel
  | .recordMaxLevel _ _ => .recordMax

/-- The decision table exactly as the claim states it (first match
wins), over `Δ` (seconds since last notification), `Tsec` (the timeout
in seconds), `R` (the current group's repeat interval in minutes,
`R` "set" being Python truthiness, i.e. present and non-zero — the only
writer of the field normalises `0` to absent), the current `level`, the
number `len` of configured groups, and whether a `MAX_LEVEL_REACHED`
event already exists. -/
def claimed_table_action (Δ Tsec : Int) (R : Option Nat) (level len : Nat)
    (hasMaxEvent : Bool) : ActionKind :=
  let Rsec : Int := 60 * ((R.getD 0 : Nat) : Int)
  if repeatConfigured R ∧ Δ < Tsec ∧ Δ ≥ Rsec then .repeatAt level
  else if Δ < Tsec then .doNothing
  else if level < len then .escalateTo (level + 1)
  else if repeatConfigured R ∧ Δ ≥ Rsec then .repeatAt level
  else if ¬ repeatConfigured R ∧ ¬ hasMaxEvent then .recordMax
  else .doNothing

/-- The decision table amended as claim C1's counterexample forces: the
escalate row additionally requires the group at the next level to
resolve (`nextExists`); when it does not, the code skips the ticket, as
for every other missing reference. -/
def amended_table_action (Δ Tsec : Int) (R : Option Nat) (level len : Nat)
    (hasMaxEvent : Bool) (nextExists : Bool) : ActionKind :=
  let Rsec : Int := 60 * ((R.getD 0 : Nat) : Int)
  if repeatConfigured R ∧ Δ < Tsec ∧ Δ ≥ Rsec then .repeatAt level
  else if Δ < Tsec then .doNothing
  else if level < len then
    (if nextExists then .escalateTo (level + 1) else .doNothing)
  else if repeatConfigured R ∧ Δ ≥ Rsec then .repeatAt level
  else if ¬ repeatConfigured R ∧ ¬ hasMaxEvent then .recordMax
  else .doNothing

/-- Number of `MAX_LEVEL_REACHED` events on a ticket's timeline. -/
def count_max_level_events (t : Ticket) : Nat :=
  (t.events.filter (fun e => e.type = EventType.maxLevelReached)).length

/-! ## Concrete sample data (used by witnesses and counterexamples) -/

/-- A pending critical ticket, as created by the intake path. -/
def sampleTicket : Ticket :=
  { project_id := "p1"
    source := "custom"
    status := TicketStatus.pending
    escalation_level := 1
    payload := "raw"
    labels := []
    title := "disk full"
    description := "d"
    severity := "critical"
    ack_token := "abcdefgh"
    acknowledged_at := none
    acknowledged_by := none
    last_notified_at := some 0
    notification_count := 1
    events := [{ type := EventType.created, timestamp := 0, level := none,
                 group_name := none, success := none, details := "" }]
    created_at := 0
    updated_at := 0
    resolved_at := none }

/-- An already-acknowledged ticket. -/
def ackSampleTicket : Ticket :=
  { sampleTicket with
      status := TicketStatus.acknowledged
      ack_token := "tok9"
      acknowledged_at := some 10
      acknowledged_by := some "link" }

/-- A notification group with no repeat interval. -/
def sampleGroup : NotificationGroup :=
  { name := "oncall", description := "", repeat_interval := none,
    channel_configs := [] }

/-- A second notification group, target of escalations. -/
def sampleGroup2 : NotificationGroup :=
  { name := "managers", description := "", repeat_interval := none,
    channel_configs := [] }

/-- An active project with escalation enabled, 1 minute timeout, two
configured groups. -/
def sampleProject : Project :=
  { id := "p1", namespace_id := "n1", name := "proj", description := ""
    notification_group_ids := ["g1", "g2"]
    escalation_config := { enabled := true, timeout_minutes := 1 }
    is_active := true, notify_on_ack := false, silenced_until := none }

/-- A store in which both of `sampleProject`'s groups resolve. -/
def sampleLookup : String → Option NotificationGroup := fun gid =>
  if gid = "g1" then some sampleGroup
  else if gid = "g2" then some sampleGroup2
  else none

/-- A store in which `sampleProject`'s second group id dangles. -/
def danglingLookup : String → Option NotificationGroup := fun gid =>
  if gid = "g1" then some sampleGroup else none

/-! ## Claim theorems -/

/-- **C4.** For every existing ticket and every token different from its
`ack_token`, the ack endpoint answers 403 (for every `format`), leaves
the ticket — status, acknowledgement fields, events and all — exactly as
it was, and fires no notification. -/
theorem ack_wrong_token_no_state_change (t : Ticket) (token : String)
    (now : Int) (h : token ≠ t.ack_token) :
    acknowledge_ticket_via_link t token now =
      ⟨t, AckResponse.forbidden, false⟩ ∧
    (acknowledge_ticket_via_link t token now).response.status_code = 403 := by
  have hne : t.ack_token ≠ token := fun h2 => h h2.symm
  refine ⟨?_, ?_⟩ <;>
    simp [acknowledge_ticket_via_link, hne, AckResponse.status_code]

/-- Witness for C4 at a concrete ticket and a concrete wrong token. -/
theorem ack_wrong_token_no_state_change_witness :
    "wrong" ≠ sampleTicket.ack_token ∧
    acknowledge_ticket_via_link sampleTicket "wrong" 100 =
      ⟨sampleTicket, AckResponse.forbidden, false⟩ := by
  refine ⟨by decide, ?_⟩
  exact (ack_wrong_token_no_state_change sampleTicket "wrong" 100 (by decide)).1

/-- **C3.** With the valid token, a ticket already `acknowledged` or
`resolved` gets a positive (non-error) response, no state change and no
notification; and — for any ticket — acknowledging twice with the valid
token leaves the same ticket state as acknowledging once. -/
theorem ack_idempotent (t : Ticket) (token : String) (now now2 : Int)
    (htok : token = t.ack_token) :
    ((t.status = TicketStatus.acknowledged ∨ t.status = TicketStatus.resolved) →
      (acknowledge_ticket_via_link t token now).ticket = t ∧
      (acknowledge_ticket_via_link t token now).notified = false ∧
      ((acknowledge_ticket_via_link t token now).response =
          AckResponse.alreadyAcknowledged ∨
        (acknowledge_ticket_via_link t token now).response =
          AckResponse.alreadyResolved)) ∧
    (acknowledge_ticket_via_link
        (acknowledge_ticket_via_link t token now).ticket token now2).ticket =
      (acknowledge_ticket_via_link t token now).ticket := by
  subst htok
  constructor
  · rintro (h | h) <;>
      simp [acknowledge_ticket_via_link, h]
  · by_cases hack : t.status = TicketStatus.acknowledged
    · simp [acknowledge_ticket_via_link, hack]
    · by_cases hres : t.status = TicketStatus.resolved
      · simp [acknowledge_ticket_via_link, hres, hack]
      · simp [acknowledge_ticket_via_link, hack, hres, Ticket.add_event]

/-- Witness for C3 at a concrete acknowledged ticket and its token. -/
theorem ack_idempotent_witness :
    ("tok9" : String) = ackSampleTicket.ack_token ∧
    (acknowledge_ticket_via_link ackSampleTicket "tok9" 50).ticket =
      ackSampleTicket := by
  refine ⟨rfl, ?_⟩
  exact ((ack_idempotent ackSampleTicket "tok9" 50 60 rfl).1
    (Or.inl rfl)).1

/-- A ticket whose severity gate fails (`can_escalate` is false),
whatever its status. -/
theorem can_escalate_false_of_severity (t : Ticket)
    (h : py_lower t.severity ≠ "critical") : t.can_escalate = false := by
  unfold Ticket.can_escalate
  split
  · rfl
  · split
    · rfl
    · simp [h]

/-- **C5.** A ticket whose severity is not `critical` under
case-insensitive comparison (the empty severity included) is left
completely untouched by any sequence of scheduler passes: no `REPEATED`
or `ESCALATED` event, no status change, no level change. -/
theorem severity_gate (t : Ticket) (ps : List TickParams)
    (h : py_lower t.severity ≠ "critical") :
    run_ticks t ps = t := by
  induction ps with
  | nil => rfl
  | cons q ps ih =>
    have hstep : tick_ticket q.lookup q.project q.now q.success q.details t = t := by
      simp [tick_ticket, process_ticket, can_escalate_false_of_severity t h,
        apply_action]
    show run_ticks (tick_ticket q.lookup q.project q.now q.success q.details t) ps = t
    rw [hstep]
    exact ih

/-- A `warning`-severity ticket for the C5 witness. -/
def warnTicket : Ticket := { sampleTicket with severity := "warning" }

/-- Witness for C5: a concrete `warning` ticket survives a concrete
scheduler pass (which would escalate a critical ticket) unchanged. -/
theorem severity_gate_witness :
    py_lower "warning" ≠ "critical" ∧
    run_ticks warnTicket
      [{ lookup := sampleLookup, project := sampleProject, now := 3600,
         success := true, details := "" }] = warnTicket := by
  refine ⟨by decide, ?_⟩
  exact severity_gate warnTicket _ (by decide)

/-- **C9** (code behaviour at the failing input).  The ack endpoint
compares the secret with Python string `!=`, whose scan exits at the
first differing character: against the stored token `"abcdefgh"`, a
candidate differing in the first character costs 1 comparison while a
candidate of the same length differing only in the last character costs
8, so the comparison cost depends on the position of the first
differing byte — not the constant-time equality the spec requires. -/
theorem token_compare_not_constant_time :
    ("Xbcdefgh" : String).length = ("abcdefgX" : String).length ∧
    sampleTicket.ack_token.length = ("Xbcdefgh" : String).length ∧
    token_compare_steps sampleTicket "Xbcdefgh" = 1 ∧
    token_compare_steps sampleTicket "abcdefgX" = 8 ∧
    (1 : Nat) ≠ 8 := by
  refine ⟨rfl, rfl, rfl, rfl, by decide⟩

/-- A ticket whose processing raises an unexpected exception. -/
def boomTicket : Ticket := { sampleTicket with title := "boom" }

/-- A ticket whose processing succeeds. -/
def okTicket : Ticket := { sampleTicket with title := "fine" }

/-- A per-ticket processing function with an unexpected exception on
`boomTicket` only. -/
def procBoom : Ticket → Except String Ticket := fun t =>
  if t.title = "boom" then Except.error "boom" else Except.ok t

/-- **C2** (code behaviour at the failing input).  The per-ticket loop
of `_check_project_tickets` has no exception handler: when the first
ticket's processing raises, the exception escapes the loop and the
second ticket — whose processing would have succeeded, as the second
conjunct shows — is never processed in that tick.  The claim's
"logged and continues with the next ticket" behaviour is absent. -/
theorem tick_sweep_aborts_on_exception :
    check_project_tickets_sweep procBoom [boomTicket, okTicket] =
      ([], some "boom") ∧
    check_project_tickets_sweep procBoom [okTicket] = ([okTicket], none) := by
  exact ⟨rfl, rfl⟩

/-- **C10.** A webhook POST addressed to an existing namespace and an
existing but disabled project answers HTTP 200 with status `ignored`
and message `Project is disabled`, creates no ticket, resolves no
ticket, sends no notification — and the request body is never parsed:
the result is the same for every body and for every JSON parser. -/
theorem webhook_disabled_project (env : WebhookEnv)
    (slug pid source body : String) (ns : Namespace) (p : Project)
    (hns : env.find_namespace slug = some ns)
    (hp : env.get_project pid = some p)
    (hmatch : p.namespace_id = ns.id)
    (hinactive : p.is_active = false) :
    receive_webhook env slug pid source body =
      ⟨⟨200, "ignored", "Project is disabled"⟩, none, [], false⟩ ∧
    (∀ body2, receive_webhook env slug pid source body2 =
      receive_webhook env slug pid source body) ∧
    (∀ pj, receive_webhook { env with parse_json := pj } slug pid source body =
      receive_webhook env slug pid source body) := by
  refine ⟨?_, fun body2 => ?_, fun pj => ?_⟩ <;>
    simp [receive_webhook, hns, hp, hmatch, hinactive]

/-- The namespace the C10 witness posts to. -/
def sampleNamespace : Namespace := { id := "n1", slug := "ops" }

/-- A disabled variant of `sampleProject`. -/
def disabledProject : Project := { sampleProject with is_active := false }

/-- A concrete webhook environment holding `sampleNamespace` and
`disabledProject`. -/
def sampleWebhookEnv : WebhookEnv :=
  { find_namespace := fun s => if s = "ops" then some sampleNamespace else none
    get_project := fun s => if s = "p1" then some disabledProject else none
    lookup_group := sampleLookup
    pending_tickets := []
    parse_json := fun _ => none
    extract_info := fun _ _ =>
      { title := "", description := "", severity := "", labels := [],
        status := "firing" }
    fresh_ack_token := "tokN"
    now := 0
    notify_success := true
    notify_details := "" }

/-- Witness for C10: the concrete disabled project ignores a concrete
(non-JSON) body with the exact response of the claim. -/
theorem webhook_disabled_project_witness :
    sampleWebhookEnv.find_namespace "ops" = some sampleNamespace ∧
    sampleWebhookEnv.get_project "p1" = some disabledProject ∧
    disabledProject.namespace_id = sampleNamespace.id ∧
    disabledProject.is_active = false ∧
    receive_webhook sampleWebhookEnv "ops" "p1" "custom" "not json" =
      ⟨⟨200, "ignored", "Project is disabled"⟩, none, [], false⟩ := by
  refine ⟨rfl, rfl, rfl, rfl, ?_⟩
  exact (webhook_disabled_project sampleWebhookEnv "ops" "p1" "custom"
    "not json" sampleNamespace disabledProject rfl rfl rfl rfl).1

/-- Appending a timeline event adds one to the `MAX_LEVEL_REACHED`
count exactly when the event has that type. -/
theorem count_max_add_event (t : Ticket) (ty : EventType) (now : Int)
    (lvl : Option Nat) (gn : Option String) (succ : Option Bool)
    (det : String) :
    count_max_level_events (t.add_event ty now lvl gn succ det) =
      count_max_level_events t +
        (if ty = EventType.maxLevelReached then 1 else 0) := by
  simp only [Ticket.add_event, count_max_level_events, List.filter_append,
    List.length_append]
  split <;> rename_i hty <;> simp [hty]

/-- The max-level branch of `_process_ticket` fires only when the ticket
has no `MAX_LEVEL_REACHED` event yet. -/
theorem process_ticket_recordMax_no_event
    (lookup : String → Option NotificationGroup) (p : Project) (t : Ticket)
    (now : Int) (lvl : Nat) (g : NotificationGroup)
    (h : process_ticket lookup p t now = TickAction.recordMaxLevel lvl g) :
    t.events.any (fun e => e.type = EventType.maxLevelReached) = false := by
  by_cases hany : t.events.any (fun e => e.type = EventType.maxLevelReached) = true
  · exfalso
    unfold process_ticket at h
    simp only [hany, if_true] at h
    repeat' split at h
    all_goals exact TickAction.noConfusion h
  · simpa using hany

/-- One scheduler pass leaves a ticket with at most `max (previous, 1)`
many `MAX_LEVEL_REACHED` events. -/
theorem tick_count_max_le (lookup : String → Option NotificationGroup)
    (p : Project) (now : Int) (succ : Bool) (det : String) (t : Ticket) :
    count_max_level_events (tick_ticket lookup p now succ det t) ≤
      max (count_max_level_events t) 1 := by
  unfold tick_ticket
  cases hp : process_ticket lookup p t now with
  | doNothing => simp [apply_action]
  | repeatNotify lvl g =>
      simp [apply_action, Ticket.add_event, count_max_level_events,
        List.filter_append]
  | escalate nl g =>
      simp [apply_action, Ticket.add_event, count_max_level_events,
        List.filter_append]
  | recordMaxLevel lvl g =>
      have h0 := process_ticket_recordMax_no_event lookup p t now lvl g hp
      have hzero : count_max_level_events t = 0 := by
        have hall := List.any_eq_false.mp h0
        simp only [count_max_level_events, List.length_eq_zero,
          List.filter_eq_nil_iff]
        intro e he
        simpa using hall e he
      have hres : count_max_level_events
          (apply_action t (TickAction.recordMaxLevel lvl g) now succ det) =
            count_max_level_events t + 1 := by
        simp [apply_action, Ticket.add_event, count_max_level_events,
          List.filter_append]
      rw [hres, hzero]
      simp

/-- Any sequence of scheduler passes preserves "at most one
`MAX_LEVEL_REACHED` event". -/
theorem run_ticks_count_max (ps : List TickParams) (t : Ticket)
    (h : count_max_level_events t ≤ 1) :
    count_max_level_events (run_ticks t ps) ≤ 1 := by
  induction ps generalizing t with
  | nil => exact h
  | cons q ps ih =>
      apply ih
      exact le_trans
        (tick_count_max_le q.lookup q.project q.now q.success q.details t)
        (max_le h le_rfl)

/-- **C7.** A ticket created by the intake path carries at most one
`MAX_LEVEL_REACHED` timeline event after any sequence of scheduler
passes whatsoever: the max-level branch appends the event only when none
exists yet. -/
theorem max_level_event_one_shot (project : Project)
    (source payload : String) (info : TicketInfo) (ack_token : String)
    (now : Int) (group_name : Option String) (success : Bool)
    (details : String) (ps : List TickParams) :
    count_max_level_events
      (run_ticks
        (intake_ticket project source payload info ack_token now
          group_name success details) ps) ≤ 1 := by
  apply run_ticks_count_max
  have hz : count_max_level_events
      (intake_ticket project source payload info ack_token now
        group_name success details) = 0 := by
    unfold intake_ticket
    split <;> simp [Ticket.add_event, count_max_level_events]
  simp [hz]

/-! ## Reachable ticket states (claim C6) -/

/-- Ticket states reachable by the core operations: intake, scheduler
pass, link acknowledgement, web acknowledgement, web resolve,
auto-resolve. -/
inductive Reachable : Ticket → Prop where
  | intake (project : Project) (source payload : String) (info : TicketInfo)
      (ack_token : String) (now : Int) (group_name : Option String)
      (success : Bool) (details : String) :
      Reachable (intake_ticket project source payload info ack_token now
        group_name success details)
  | tick (lookup : String → Option NotificationGroup) (project : Project)
      (now : Int) (success : Bool) (details : String) {t : Ticket} :
      Reachable t →
      Reachable (tick_ticket lookup project now success details t)
  | link_ack (token : String) (now : Int) {t : Ticket} :
      Reachable t →
      Reachable (acknowledge_ticket_via_link t token now).ticket
  | web_ack (user_id user_name : String) (now : Int) {t : Ticket} :
      Reachable t →
      Reachable (acknowledge_ticket_web t user_id user_name now)
  | web_resolve (user_name : String) (now : Int) {t : Ticket} :
      Reachable t →
      Reachable (resolve_ticket_web t user_name now)
  | auto_resolve (now : Int) {t : Ticket} :
      Reachable t →
      Reachable (auto_resolve_ticket t now)

/-- The status/timestamp coherence invariant exactly as the claim states
it: acknowledgement fields present iff status `acknowledged`,
`resolved_at` present iff status `resolved`. -/
def claimed_coherence (t : Ticket) : Prop :=
  ((t.acknowledged_at ≠ none ∧ t.acknowledged_by ≠ none) ↔
    t.status = TicketStatus.acknowledged) ∧
  (t.resolved_at ≠ none ↔ t.status = TicketStatus.resolved)

/-- The coherence invariant amended as the counterexample forces:
resolving a ticket keeps its acknowledgement fields, so those fields
witness a status that is `acknowledged` or `resolved`; the `resolved_at`
direction is unchanged. -/
def amended_coherence (t : Ticket) : Prop :=
  (t.status = TicketStatus.acknowledged →
    t.acknowledged_at ≠ none ∧ t.acknowledged_by ≠ none) ∧
  ((t.acknowledged_at ≠ none ∨ t.acknowledged_by ≠ none) →
    t.status = TicketStatus.acknowledged ∨ t.status = TicketStatus.resolved) ∧
  (t.resolved_at ≠ none ↔ t.status = TicketStatus.resolved)

/-- A scheduler pass acts only on tickets passing the `can_escalate`
gate. -/
theorem process_ticket_can_escalate
    (lookup : String → Option NotificationGroup) (p : Project) (t : Ticket)
    (now : Int) (h : process_ticket lookup p t now ≠ TickAction.doNothing) :
    t.can_escalate = true := by
  by_cases hc : t.can_escalate = true
  · exact hc
  · exfalso
    apply h
    unfold process_ticket
    simp [hc]

/-- `can_escalate` implies status `pending` or `escalated`. -/
theorem can_escalate_status {t : Ticket} (h : t.can_escalate = true) :
    t.status = TicketStatus.pending ∨ t.status = TicketStatus.escalated := by
  unfold Ticket.can_escalate at h
  split at h
  · exact absurd h (by simp)
  · rename_i hcond
    by_cases h1 : t.status = TicketStatus.pending
    · exact Or.inl h1
    · by_cases h2 : t.status = TicketStatus.escalated
      · exact Or.inr h2
      · exact absurd ⟨h1, h2⟩ hcond

/-- A scheduler pass never touches the acknowledgement fields or
`resolved_at`, and either keeps the status or sets it to `escalated`. -/
theorem apply_action_fields (t : Ticket) (a : TickAction) (now : Int)
    (s : Bool) (d : String) :
    (apply_action t a now s d).acknowledged_at = t.acknowledged_at ∧
    (apply_action t a now s d).acknowledged_by = t.acknowledged_by ∧
    (apply_action t a now s d).resolved_at = t.resolved_at ∧
    ((apply_action t a now s d).status = t.status ∨
      (apply_action t a now s d).status = TicketStatus.escalated) := by
  cases a <;> simp [apply_action, Ticket.add_event]

/-- **C6 (amended).** In every reachable ticket state: status
`acknowledged` implies both acknowledgement fields are set; a set
acknowledgement field implies status `acknowledged` or `resolved` (a
resolve of an acknowledged ticket keeps the fields); and `resolved_at`
is set exactly when the status is `resolved`. -/
theorem status_timestamp_coherence {t : Ticket} (h : Reachable t) :
    amended_coherence t := by
  induction h with
  | intake project source payload info ack_token now group_name success details =>
      unfold intake_ticket amended_coherence
      split <;> simp [Ticket.add_event]
  | @tick lookup project now success details t ht ih =>
      unfold tick_ticket
      by_cases hce : t.can_escalate = true
      · obtain ⟨ha1, ha2, ha3, ha4⟩ :=
          apply_action_fields t (process_ticket lookup project t now) now
            success details
        have hstat := can_escalate_status hce
        obtain ⟨ih1, ih2, ih3⟩ := ih
        have hackat : t.acknowledged_at = none := by
          by_contra hne
          rcases ih2 (Or.inl hne) with hs | hs <;>
            rcases hstat with hp | hp <;> rw [hp] at hs <;> exact absurd hs (by simp)
        have hackby : t.acknowledged_by = none := by
          by_contra hne
          rcases ih2 (Or.inr hne) with hs | hs <;>
            rcases hstat with hp | hp <;> rw [hp] at hs <;> exact absurd hs (by simp)
        have hres : t.resolved_at = none := by
          by_contra hne
          have hs := ih3.mp hne
          rcases hstat with hp | hp <;> rw [hp] at hs <;> exact absurd hs (by simp)
        refine ⟨?_, ?_, ?_⟩
        · intro hsa
          rcases ha4 with h4 | h4
          · rw [h4] at hsa
            rcases hstat with hp | hp <;> rw [hp] at hsa <;>
              exact absurd hsa (by simp)
          · rw [h4] at hsa
            exact absurd hsa (by simp)
        · intro hor
          rw [ha1, ha2] at hor
          rcases hor with hne | hne
          · exact absurd hne (by simp [hackat])
          · exact absurd hne (by simp [hackby])
        · rw [ha3]
          constructor
          · intro hne
            exact absurd hne (by simp [hres])
          · intro hsr
            rcases ha4 with h4 | h4
            · rw [h4] at hsr
              rcases hstat with hp | hp <;> rw [hp] at hsr <;>
                exact absurd hsr (by simp)
            · rw [h4] at hsr
              exact absurd hsr (by simp)
      · have hdn : process_ticket lookup project t now = TickAction.doNothing := by
          unfold process_ticket
          simp [hce]
        rw [hdn]
        exact ih
  | @link_ack token now t ht ih =>
      unfold acknowledge_ticket_via_link
      split
      · exact ih
      · split
        · exact ih
        · split
          · exact ih
          · rename_i htok hnack hnres
            have hres : t.resolved_at = none := by
              by_contra hne2
              exact hnres (ih.2.2.mp hne2)
            unfold amended_coherence
            simp [Ticket.add_event, hres]
  | @web_ack user_id user_name now t ht ih =>
      unfold acknowledge_ticket_web
      split
      · rename_i hcond
        have hres : t.resolved_at = none := by
          by_contra hne2
          have hs := ih.2.2.mp hne2
          rcases hcond with hp | hp <;> rw [hp] at hs <;> exact absurd hs (by simp)
        unfold amended_coherence
        simp [Ticket.add_event, hres]
      · exact ih
  | @web_resolve user_name now t ht ih =>
      unfold resolve_ticket_web
      split
      · unfold amended_coherence
        simp [Ticket.add_event]
      · exact ih
  | @auto_resolve now t ht ih =>
      unfold auto_resolve_ticket
      split
      · unfold amended_coherence
        simp [Ticket.add_event]
      · exact ih

/-- Intake arguments for the C6 state trace. -/
def c6Info : TicketInfo :=
  { title := "cpu", description := "", severity := "warning", labels := [],
    status := "firing" }

/-- A freshly intaken ticket. -/
def c6Base : Ticket :=
  intake_ticket sampleProject "custom" "x" c6Info "tk" 0 none true ""

/-- `c6Base` acknowledged from the web UI. -/
def c6Acked : Ticket := acknowledge_ticket_web c6Base "u1" "alice" 5

/-- `c6Acked` then resolved from the web UI: status `resolved` with the
acknowledgement fields still set. -/
def c6Resolved : Ticket := resolve_ticket_web c6Acked "alice" 6

/-- **C6 (counterexample).** The claimed "if and only if" fails on a
reachable state: intake, then web acknowledge, then web resolve leaves
`acknowledged_at`/`acknowledged_by` set on a ticket whose status is
`resolved`, not `acknowledged`. -/
theorem claimed_coherence_fails :
    ¬ (∀ t : Ticket, Reachable t → claimed_coherence t) := by
  intro hall
  have hreach : Reachable c6Resolved :=
    Reachable.web_resolve "alice" 6
      (Reachable.web_ack "u1" "alice" 5
        (Reachable.intake sampleProject "custom" "x" c6Info "tk" 0 none true ""))
  have hc := hall c6Resolved hreach
  have hat : c6Resolved.acknowledged_at = some 5 := rfl
  have hby : c6Resolved.acknowledged_by = some "u1" := rfl
  have hst : c6Resolved.status = TicketStatus.resolved := rfl
  have hsa := hc.1.mp ⟨by simp [hat], by simp [hby]⟩
  rw [hst] at hsa
  exact absurd hsa (by simp)

/-- Witness for the amended C6 theorem at a concrete reachable ticket. -/
theorem status_timestamp_coherence_witness :
    Reachable c6Resolved ∧ amended_coherence c6Resolved := by
  have hreach : Reachable c6Resolved :=
    Reachable.web_resolve "alice" 6
      (Reachable.web_ack "u1" "alice" 5
        (Reachable.intake sampleProject "custom" "x" c6Info "tk" 0 none true ""))
  exact ⟨hreach, status_timestamp_coherence hreach⟩

/-- **C1 (amended).** For a project with escalation enabled and active,
a ticket with status `pending`/`escalated` and critical severity whose
current escalation group resolves, one scheduler pass takes exactly the
action of the first matching row of the decision table — with the
escalate row additionally conditioned on the next level's group
resolving (a dangling next group id makes the pass do nothing, as for
every other missing reference). -/
theorem decision_table (lookup : String → Option NotificationGroup)
    (p : Project) (t : Ticket) (now : Int) (cg : NotificationGroup)
    (hen : p.escalation_config.enabled = true)
    (hact : p.is_active = true)
    (hstat : t.status = TicketStatus.pending ∨ t.status = TicketStatus.escalated)
    (hsev : py_lower t.severity = "critical")
    (hlev : 1 ≤ t.escalation_level)
    (hidx : t.escalation_level - 1 < p.notification_group_ids.length)
    (hcur : lookup (p.notification_group_ids.getD (t.escalation_level - 1) "") =
      some cg) :
    (process_ticket lookup p t now).kind =
      amended_table_action (now - t.last_notified_at.getD t.created_at)
        (60 * (p.escalation_config.timeout_minutes : Int))
        cg.repeat_interval t.escalation_level
        p.notification_group_ids.length
        (t.events.any (fun e => e.type = EventType.maxLevelReached))
        ((lookup (p.notification_group_ids.getD t.escalation_level "")).isSome) := by
  have hsev0 : t.severity ≠ "" := by
    intro h0
    rw [h0] at hsev
    exact absurd hsev (by decide)
  have hce : t.can_escalate = true := by
    unfold Ticket.can_escalate
    rcases hstat with hs | hs <;> simp [hs, hsev0, hsev]
  have hnotge : ¬ (p.notification_group_ids.length ≤ t.escalation_level - 1) :=
    not_le.mpr hidx
  unfold process_ticket amended_table_action
  simp only [hce, hcur, Nat.add_sub_cancel, if_neg hnotge]
  simp only [not_true_eq_false, Bool.false_eq_true, if_false]
  cases hnext : lookup (p.notification_group_ids.getD t.escalation_level "") <;>
    simp only [hnext] <;> split_ifs <;>
      simp_all [TickAction.kind] <;> omega

/-- **C1 (counterexample).** At a concrete input inside the claim's
domain — escalation enabled and active, pending critical ticket, current
group resolving, `Δ ≥ T`, level 1 of 2 — but with a dangling second
group id, the claimed table demands an escalation to level 2 while the
code does nothing. -/
theorem decision_table_counterexample :
    sampleProject.escalation_config.enabled = true ∧
    sampleProject.is_active = true ∧
    sampleTicket.status = TicketStatus.pending ∧
    py_lower sampleTicket.severity = "critical" ∧
    danglingLookup (sampleProject.notification_group_ids.getD
      (sampleTicket.escalation_level - 1) "") = some sampleGroup ∧
    claimed_table_action
      (3600 - sampleTicket.last_notified_at.getD sampleTicket.created_at)
      (60 * (sampleProject.escalation_config.timeout_minutes : Int))
      sampleGroup.repeat_interval sampleTicket.escalation_level
      sampleProject.notification_group_ids.length
      (sampleTicket.events.any (fun e => e.type = EventType.maxLevelReached)) =
      ActionKind.escalateTo 2 ∧
    (process_ticket danglingLookup sampleProject sampleTicket 3600).kind =
      ActionKind.doNothing := by
  refine ⟨rfl, rfl, rfl, by decide, rfl, by decide, by decide⟩

/-- Witness for the amended C1 theorem: at the same concrete input with
both groups resolving, the pass escalates exactly as the amended table
says. -/
theorem decision_table_witness :
    py_lower sampleTicket.severity = "critical" ∧
    (process_ticket sampleLookup sampleProject sampleTicket 3600).kind =
      amended_table_action
        (3600 - sampleTicket.last_notified_at.getD sampleTicket.created_at)
        (60 * (sampleProject.escalation_config.timeout_minutes : Int))
        sampleGroup.repeat_interval sampleTicket.escalation_level
        sampleProject.notification_group_ids.length
        (sampleTicket.events.any (fun e => e.type = EventType.maxLevelReached))
        ((sampleLookup (sampleProject.notification_group_ids.getD
          sampleTicket.escalation_level "")).isSome) := by
  refine ⟨by decide, ?_⟩
  exact decision_table sampleLookup sampleProject sampleTicket 3600 sampleGroup
    rfl rfl (Or.inl rfl) (by decide) (by decide) (by decide) rfl

/-- Entries produced by a dict insertion are the inserted pair or old
entries. -/
theorem mem_dict_insert {m : List (String × Bool)} {k : String} {v : Bool}
    {p : String × Bool} (h : p ∈ dict_insert m k v) : p = (k, v) ∨ p ∈ m := by
  unfold dict_insert at h
  split at h
  · rcases List.mem_map.mp h with ⟨q, hq, hpq⟩
    by_cases hk : q.1 = k
    · left
      rw [← hpq]
      simp [hk]
    · right
      rw [← hpq]
      simpa [hk] using hq
  · rcases List.mem_append.mp h with h2 | h2
    · exact Or.inr h2
    · left
      simpa using h2

/-- Entries of a dict merge come from one of the two sides. -/
theorem mem_dict_update {u m : List (String × Bool)} {p : String × Bool}
    (h : p ∈ dict_update m u) : p ∈ m ∨ p ∈ u := by
  induction u generalizing m with
  | nil => exact Or.inl h
  | cons q u ih =>
      rcases ih h with h2 | h2
      · rcases mem_dict_insert h2 with h3 | h3
        · right
          simp [h3]
        · exact Or.inl h3
      · right
        simp [h2]

/-- `ObjectId` conversion succeeds on a list of valid ids, returning the
list itself. -/
theorem mapM_object_ids (l : List String)
    (h : ∀ x ∈ l, is_valid_object_id x = true) :
    l.mapM (fun cid =>
      if is_valid_object_id cid then (Except.ok cid : Except String String)
      else Except.error ("InvalidId: " ++ cid)) = Except.ok l := by
  induction l with
  | nil => rfl
  | cons x l ih =>
      have hx := h x (by simp)
      have hl := ih (fun y hy => h y (by simp [hy]))
      rw [List.mapM_cons, hl, if_pos hx]
      rfl

/-- Folding transport attempts over contacts only produces entries whose
value is the transport outcome of their own label. -/
theorem fold_contacts_prop (transport : TransportOracle)
    (P : Contact → Prop) [DecidablePred P] (label : Contact → String)
    (cs : List Contact) (acc : List (String × Bool))
    (hacc : ∀ p ∈ acc, p.2 = transport p.1) :
    ∀ p ∈ cs.foldl (fun a c =>
        if P c then dict_insert a (label c) (transport (label c))
        else a) acc,
      p.2 = transport p.1 := by
  induction cs generalizing acc with
  | nil => exact hacc
  | cons c cs ih =>
      intro p hp
      refine ih _ ?_ p hp
      intro q hq
      by_cases hP : P c
      · simp only [hP, if_true] at hq
        rcases mem_dict_insert hq with h2 | h2
        · rw [h2]
        · exact hacc q h2
      · simp only [hP, if_false] at hq
        exact hacc q hq

/-- Bind of an `ok` value in the `Except` monad. -/
theorem except_bind_ok {α β : Type} (v : α) (k : α → Except String β) :
    (Except.ok v >>= k) = k v := rfl

/-- Bind of a `pure` value in the `Except` monad. -/
theorem except_pure_bind {α β : Type} (v : α) (k : α → Except String β) :
    ((pure v : Except String α) >>= k) = k v := rfl

/-- A channel config whose contact ids are all well-formed and which, if
of slack type, resolves no contact, never raises, and each produced
entry records the transport outcome of its label. -/
theorem send_to_channel_config_ok (contacts_store : List Contact)
    (transport : TransportOracle) (cfg : ChannelConfig)
    (h : ∀ cid ∈ cfg.contact_ids, cid ≠ "" → is_valid_object_id cid = true)
    (hslack : cfg.type = ChannelType.slack →
      (resolved_contacts contacts_store cfg).isEmpty = true) :
    ∃ r, send_to_channel_config contacts_store transport cfg = Except.ok r ∧
      ∀ p ∈ r, p.2 = transport p.1 := by
  have hmap := mapM_object_ids (cfg.contact_ids.filter (fun c => c ≠ ""))
    (fun x hx => by
      rcases List.mem_filter.mp hx with ⟨hx1, hx2⟩
      exact h x hx1 (by simpa using hx2))
  unfold send_to_channel_config
  rw [hmap]
  simp only [except_bind_ok, except_pure_bind]
  split
  · exact ⟨[], rfl, by simp⟩
  · split
    · refine ⟨_, rfl, ?_⟩
      exact fold_contacts_prop transport (fun c => c.feishu_webhook_url ≠ "")
        (fun c => "feishu:" ++ c.name) _ [] (by simp)
    · split
      · exact ⟨[], rfl, by simp⟩
      · exact ⟨[("email", transport "email")], rfl, by simp⟩
    · split
      · exact ⟨[], rfl, by simp⟩
      · exact ⟨[("sms", transport "sms")], rfl, by simp⟩
    · rename_i hne hx heq
      have hempty := hslack heq
      unfold resolved_contacts at hempty
      exact absurd hempty hne

/-- The config fold of `send_to_group` never raises when every contact
id is well-formed and no slack config resolves a contact, and its
result map only holds transport outcomes. -/
theorem send_to_group_configs_ok (contacts_store : List Contact)
    (transport : TransportOracle) (cfgs : List ChannelConfig)
    (acc : List (String × Bool))
    (hacc : ∀ p ∈ acc, p.2 = transport p.1)
    (h : ∀ cfg ∈ cfgs, ∀ cid ∈ cfg.contact_ids,
      cid ≠ "" → is_valid_object_id cid = true)
    (hs : ∀ cfg ∈ cfgs, cfg.type = ChannelType.slack →
      (resolved_contacts contacts_store cfg).isEmpty = true) :
    ∃ m, (cfgs.foldlM (fun acc cfg => do
        let r ← send_to_channel_config contacts_store transport cfg
        pure (dict_update acc r)) acc) = Except.ok m ∧
      ∀ p ∈ m, p.2 = transport p.1 := by
  induction cfgs generalizing acc with
  | nil => exact ⟨acc, rfl, hacc⟩
  | cons cfg cfgs ih =>
      obtain ⟨r, hr, hrp⟩ := send_to_channel_config_ok contacts_store
        transport cfg (h cfg (by simp)) (hs cfg (by simp))
      have hnew : ∀ p ∈ dict_update acc r, p.2 = transport p.1 := by
        intro p hp
        rcases mem_dict_update hp with h2 | h2
        exacts [hacc p h2, hrp p h2]
      obtain ⟨m, hm, hmp⟩ := ih (dict_update acc r) hnew
        (fun c hc => h c (by simp [hc])) (fun c hc => hs c (by simp [hc]))
      refine ⟨m, ?_, hmp⟩
      rw [List.foldlM_cons, hr, except_bind_ok, except_pure_bind]
      exact hm

/-- **C8 (amended).** When every non-empty contact id of the group's
channel configs is a well-formed object id, and every slack channel
config of the group resolves no contact (the slack branch is broken in
this code state: it reads `contact.slack_channel_id`, which the
`Contact` model does not define, and names `SlackChannel`, which
`app/channels/slack.py` does not define, so a resolved contact makes it
raise), `send_to_group` raises nothing: it returns a label-to-boolean
map in which every entry is the transport outcome of its own label
(transport failures are `false` entries), and the ticket comes back
exactly as it went in — no field change, no event, no counter
increment. -/
theorem send_to_group_contract (jinja : String → Except String String)
    (parse_card : String → Option String) (contacts_store : List Contact)
    (transport : TransportOracle) (t : Ticket) (group : NotificationGroup)
    (template : Option NotificationTemplate) (project : Option Project)
    (fe fr fa : Bool) (abn : String)
    (h : ∀ cfg ∈ group.channel_configs, ∀ cid ∈ cfg.contact_ids,
      cid ≠ "" → is_valid_object_id cid = true)
    (hs : ∀ cfg ∈ group.channel_configs, cfg.type = ChannelType.slack →
      (resolved_contacts contacts_store cfg).isEmpty = true) :
    ∃ m, send_to_group jinja parse_card contacts_store transport t group
        template project fe fr fa abn = Except.ok (m, t) ∧
      ∀ p ∈ m, p.2 = transport p.1 := by
  obtain ⟨m, hm, hmp⟩ := send_to_group_configs_ok contacts_store transport
    group.channel_configs [] (by simp) h hs
  refine ⟨m, ?_, hmp⟩
  unfold send_to_group
  simp only [hm, except_bind_ok]
  rfl

/-- A group holding a malformed contact id. -/
def badGroup : NotificationGroup :=
  { name := "bad", description := "", repeat_interval := none,
    channel_configs := [{ type := ChannelType.feishu, contact_ids := ["zz"] }] }

/-- A contact with a well-formed 24-hex-character id and no feishu
webhook. -/
def slackContact : Contact :=
  { id := "bbbbbbbbbbbbbbbbbbbbbbbb", name := "carol", phones := [],
    emails := [], feishu_webhook_url := "" }

/-- A group whose single channel config is a slack config resolving
`slackContact`. -/
def slackGroup : NotificationGroup :=
  { name := "slackers", description := "", repeat_interval := none,
    channel_configs :=
      [{ type := ChannelType.slack,
         contact_ids := ["bbbbbbbbbbbbbbbbbbbbbbbb"] }] }

/-- **C8 (counterexample).** `send_to_group` raises to its caller at two
concrete inputs, refuting "never raises": a feishu config holding the
contact id `"zz"` (not a valid object id) makes `ObjectId` raise
`InvalidId`; and a slack config resolving one perfectly well-formed
contact raises `AttributeError`, because the loop reads
`contact.slack_channel_id`, a field the `Contact` model does not
define. -/
theorem send_to_group_raises :
    send_to_group (fun _ => Except.ok "") (fun _ => none) []
      (fun _ => true) sampleTicket badGroup none none false false false "" =
      Except.error "InvalidId: zz" ∧
    send_to_group (fun _ => Except.ok "") (fun _ => none) [slackContact]
      (fun _ => true) sampleTicket slackGroup none none false false false "" =
      Except.error "AttributeError: Contact.slack_channel_id" := by
  exact ⟨rfl, rfl⟩

/-- A contact with a well-formed 24-hex-character id and a feishu
webhook. -/
def goodContact : Contact :=
  { id := "aaaaaaaaaaaaaaaaaaaaaaaa", name := "bob", phones := [],
    emails := [], feishu_webhook_url := "hook" }

/-- A group whose single channel config holds only `goodContact`'s id. -/
def goodGroup : NotificationGroup :=
  { name := "good", description := "", repeat_interval := none,
    channel_configs :=
      [{ type := ChannelType.feishu,
         contact_ids := ["aaaaaaaaaaaaaaaaaaaaaaaa"] }] }

/-- Witness for the amended C8 theorem at a concrete well-formed group
with no slack config. -/
theorem send_to_group_contract_witness :
    (∀ cfg ∈ goodGroup.channel_configs, ∀ cid ∈ cfg.contact_ids,
      cid ≠ "" → is_valid_object_id cid = true) ∧
    (∀ cfg ∈ goodGroup.channel_configs, cfg.type = ChannelType.slack →
      (resolved_contacts [goodContact] cfg).isEmpty = true) ∧
    ∃ m, send_to_group (fun _ => Except.ok "") (fun _ => none) [goodContact]
        (fun _ => true) sampleTicket goodGroup none none false false false "" =
        Except.ok (m, sampleTicket) ∧
      ∀ p ∈ m, p.2 = (fun _ => true : TransportOracle) p.1 := by
  refine ⟨by decide, by decide, ?_⟩
  exact send_to_group_contract (fun _ => Except.ok "") (fun _ => none)
    [goodContact] (fun _ => true) sampleTicket goodGroup none none
    false false false "" (by decide) (by decide)

end Bullet
